import Mathlib

/-!
SPI flash identification example (`src/main.c`).

A shallow embedding of the application `main` of the hardware SPI example and
of the vendor table it consults.  The HAL (`spi_hw_*`, `gpio_*`, `os_task_sleep`,
`sleep`, `logicrom_init`) and `printf` are external: a run of `main` is
modelled as the list of calls it makes, given the values the HAL returns.
-/

namespace SpiExample

/-! ## Build-time configuration -/

/-- The preprocessor symbols the source tests: `SOC_RDA8910`,
`PLATFORM_LOGICROM_SPARK` and `USE_SPI_HW_CHIPSELECT`. -/
structure Config where
  soc_rda8910 : Bool
  platform_logicrom_spark : Bool
  use_spi_hw_chipselect : Bool
  deriving DecidableEq, Repr

/-- Port names of `hw/spi.h` used by the source. -/
inductive SpiPort where
  | SPI_PORT_0
  | SPI_PORT_1
  deriving DecidableEq, Repr

/-- Line names of `hw/gpio.h` used by the source. -/
inductive GpioLine where
  | GPIO_0
  | GPIO_23
  deriving DecidableEq, Repr

/-- Modelled from the spec: the header `hw/spi.h` is not part of the sources;
the SPI mode argument is kept symbolic, `SPI_MODE0` being the one the source
passes (SPI mode 0). -/
inductive SpiMode where
  | SPI_MODE0
  | SPI_MODE1
  | SPI_MODE2
  | SPI_MODE3
  deriving DecidableEq, Repr

/-- Modelled from the spec: the header `hw/spi.h` is not part of the sources;
the chip-select polarity argument is kept symbolic, `SPI_CSPOL_LOW` being the
one the source passes (active low). -/
inductive SpiCsPol where
  | SPI_CSPOL_LOW
  | SPI_CSPOL_HIGH
  deriving DecidableEq, Repr

/-- Flag names of `hw/gpio.h` used by the source; `a | b` is the list `[a, b]`. -/
inductive GpioFlag where
  | GPIO_FLAG_OUTPUT
  | GPIO_FLAG_DEFHIGH
  deriving DecidableEq, Repr

/-- Macro `STDIO_PORT`: the device `logicrom_init` is given. -/
def STDIO_PORT (cfg : Config) : String :=
  if cfg.soc_rda8910 then "/dev/ttyUSB0" else "/dev/ttyS0"

/-- Macro `SPI_HW_PORT`: the bus port of the build. -/
def SPI_HW_PORT (cfg : Config) : SpiPort :=
  if cfg.platform_logicrom_spark then SpiPort.SPI_PORT_1 else SpiPort.SPI_PORT_0

/-- Line `CS_GPIO` of the GPIO chip-select variant. -/
def CS_GPIO (cfg : Config) : GpioLine :=
  if cfg.platform_logicrom_spark then GpioLine.GPIO_23 else GpioLine.GPIO_0

/-- Opcode `SPIF_ENABLE_RESET`. -/
def SPIF_ENABLE_RESET : Nat := 0x66

/-- Opcode `SPIF_RESET_DEVICE`. -/
def SPIF_RESET_DEVICE : Nat := 0x99

/-- Opcode `SPIF_READ_JEDECID`. -/
def SPIF_READ_JEDECID : Nat := 0x9F

/-! ## Vendor table -/

/-- Entry of the vendor table, `struct _spif_vendor_t`. -/
structure spif_vendor_t where
  id : Nat
  vendor : String
  deriving DecidableEq, Repr

/-- The vendor table `spif_vlist[]`, in declaration order. -/
def spif_vlist : List spif_vendor_t :=
  [ ⟨0x1F, "Atmel"⟩,   ⟨0xC8, "GigaDevice"⟩, ⟨0x2C, "Micron"⟩,
    ⟨0xBF, "SST"⟩,     ⟨0xC2, "Macronix"⟩,   ⟨0xEF, "Winbond"⟩,
    ⟨0xDA, "Winbond"⟩, ⟨0x20, "XMC"⟩ ]

/-- Element `tbl[i]`; the loop only reads indices below the table length. -/
def entry_at (tbl : List spif_vendor_t) (i : Nat) : spif_vendor_t :=
  tbl.getD i ⟨0, ""⟩

/-- The search loop `for (i = 0; i < count; i++) if (tbl[i].id == b) break;`
started at index `i` with `todo = count - i` iterations left; the value is
that of `i` when the loop is left. -/
def vendor_scan (tbl : List spif_vendor_t) (b : Nat) : Nat → Nat → Nat
  | 0, i => i
  | todo + 1, i => if (entry_at tbl i).id = b then i else vendor_scan tbl b todo (i + 1)

/-- The `%s` argument of the report: `i == count ? "Unknown" : tbl[i].vendor`
after the search loop over a table `tbl` of `count` entries. -/
def vendor_of (tbl : List spif_vendor_t) (b : Nat) : String :=
  let count := tbl.length
  let i := vendor_scan tbl b count 0
  if i = count then "Unknown" else (entry_at tbl i).vendor

/-! ## `printf` conversions -/

/-- Argument of a `printf` call. -/
inductive PfArg where
  | str (s : String)
  | int (v : Int)
  deriving DecidableEq, Repr

/-- Digit character of the value `d` (below 16), letters in upper or lower case. -/
def digit_char (upper : Bool) (d : Nat) : Char :=
  if d < 10 then Char.ofNat (48 + d)
  else if upper then Char.ofNat (55 + d) else Char.ofNat (87 + d)

/-- Digits of `n` in base `base`, least significant first (at most `fuel` of
them; `fuel = n + 1` is always enough). -/
def digits_rev (base : Nat) : Nat → Nat → List Nat
  | 0, _ => []
  | fuel + 1, n => if n < base then [n] else (n % base) :: digits_rev base fuel (n / base)

/-- Unsigned conversion of `n` in base `base`, most significant digit first. -/
def fmt_unsigned (base : Nat) (upper : Bool) (n : Nat) : List Char :=
  ((digits_rev base (n + 1) n).reverse).map (digit_char upper)

/-- Left padding with `'0'` up to a minimal width. -/
def zero_pad (width : Nat) (cs : List Char) : List Char :=
  List.replicate (width - cs.length) '0' ++ cs

/-- The conversion `%d` of an `int`. -/
def fmt_d (v : Int) : List Char :=
  if v < 0 then '-' :: fmt_unsigned 10 false (-v).toNat else fmt_unsigned 10 false v.toNat

/-- The conversion `%x` of an `int` argument, read as a 32-bit `unsigned`. -/
def fmt_x (v : Int) : List Char :=
  fmt_unsigned 16 false (v % 2 ^ 32).toNat

/-- The conversion `%02X` of an `int` argument, read as a 32-bit `unsigned`. -/
def fmt_02X (v : Int) : List Char :=
  zero_pad 2 (fmt_unsigned 16 true (v % 2 ^ 32).toNat)

/-- Output of `printf` for the conversions the source uses (`%s`, `%d`, `%x`,
`%02X`); any other character is copied. -/
def render : List Char → List PfArg → List Char
  | '%' :: 's' :: fmt, PfArg.str s :: args => s.data ++ render fmt args
  | '%' :: 'd' :: fmt, PfArg.int v :: args => fmt_d v ++ render fmt args
  | '%' :: 'x' :: fmt, PfArg.int v :: args => fmt_x v ++ render fmt args
  | '%' :: '0' :: '2' :: 'X' :: fmt, PfArg.int v :: args => fmt_02X v ++ render fmt args
  | c :: fmt, args => c :: render fmt args
  | [], _ => []

/-! ## Calls made by `main` -/

/-- One call of `main` into the HAL, the C library or the OS.  A transfer
records the bytes of the write buffer (`none` for `NULL`) and whether a read
buffer was passed. -/
inductive Event where
  | logicrom_init (port : String)
  | printf (fmt : String) (args : List PfArg)
  | spi_hw_init (port : SpiPort) (arg2 : Bool) (clock : Nat) (mode : SpiMode) (cspol : SpiCsPol)
  | spi_hw_cscontrol (port : SpiPort) (level : Nat)
  | gpio_request (line : GpioLine) (flags : List GpioFlag)
  | gpio_write (handle : Int) (level : Nat)
  | spi_hw_transfer (port : SpiPort) (tx : Option (List Nat)) (rx : Bool) (len : Nat)
  | os_task_sleep (ms : Nat)
  | spi_hw_free (port : SpiPort)
  | gpio_free (handle : Int)
  | sleep (sec : Nat)
  deriving DecidableEq, Repr

/-- What the HAL answers during one run: the return value of `spi_hw_init`,
the handle returned by `gpio_request`, and the three bytes the read transfer
stores into the buffer. -/
structure Hal where
  spi_hw_init_ret : Int
  gpio_request_ret : Int
  rx0 : Nat
  rx1 : Nat
  rx2 : Nat
  deriving DecidableEq, Repr

/-- Chip-select write: `spi_hw_cscontrol(SPI_HW_PORT, level)` under
`USE_SPI_HW_CHIPSELECT`, `gpio_write(cs_handle, level)` otherwise. -/
def cs_write (cfg : Config) (cs_handle : Int) (level : Nat) : Event :=
  if cfg.use_spi_hw_chipselect then Event.spi_hw_cscontrol (SPI_HW_PORT cfg) level
  else Event.gpio_write cs_handle level

/-- Buffer after `spi_hw_transfer(port, NULL, buf, 3)`: three bytes stored from
index 0. -/
def store_rx (hal : Hal) (buf : List Nat) : List Nat :=
  [hal.rx0 % 256, hal.rx1 % 256, hal.rx2 % 256] ++ buf.drop 3

/-- The commands of the `do` block once chip-select is available, from the
first chip-select write to the report; `buf` is the 4-byte buffer. -/
def flash_commands (cfg : Config) (hal : Hal) (cs_handle : Int) (buf : List Nat) : List Event :=
  let buf1 := buf.set 0 SPIF_ENABLE_RESET
  let buf2 := buf1.set 0 SPIF_RESET_DEVICE
  let buf3 := buf2.set 0 SPIF_READ_JEDECID
  let buf4 := store_rx hal buf3
  [ cs_write cfg cs_handle 0,
    Event.spi_hw_transfer (SPI_HW_PORT cfg) (some (buf1.take 1)) false 1,
    cs_write cfg cs_handle 1,
    cs_write cfg cs_handle 0,
    Event.spi_hw_transfer (SPI_HW_PORT cfg) (some (buf2.take 1)) false 1,
    cs_write cfg cs_handle 1,
    Event.os_task_sleep 100,
    cs_write cfg cs_handle 0,
    Event.spi_hw_transfer (SPI_HW_PORT cfg) (some (buf3.take 1)) false 1,
    Event.spi_hw_transfer (SPI_HW_PORT cfg) none true 3,
    cs_write cfg cs_handle 1,
    Event.printf "SPI Flash ID: %s[%02X%02X%02X]\n\n"
      [ PfArg.str (vendor_of spif_vlist (buf4.getD 0 0)),
        PfArg.int (buf4.getD 0 0), PfArg.int (buf4.getD 1 0), PfArg.int (buf4.getD 2 0) ] ]

/-- The block `do { ... } while (0)` of `main`: the value of `cs_handle` when
the block is left (by `break` or at its end) and the calls made. -/
def spi_test (cfg : Config) (hal : Hal) : Int × List Event :=
  let cs_handle : Int := 0
  let buf : List Nat := [0, 0, 0, 0]
  let ret := hal.spi_hw_init_ret
  let t_init :=
    [ Event.spi_hw_init (SPI_HW_PORT cfg) false 10000 SpiMode.SPI_MODE0 SpiCsPol.SPI_CSPOL_LOW,
      Event.printf "SPI Init: %d\n\n" [PfArg.int ret] ]
  if ret ≠ 0 then (cs_handle, t_init)
  else if cfg.use_spi_hw_chipselect then
    (cs_handle, t_init ++ flash_commands cfg hal cs_handle buf)
  else
    let cs_handle := hal.gpio_request_ret
    let t_req :=
      [ Event.gpio_request ( CS_GPIO cfg) [GpioFlag.GPIO_FLAG_OUTPUT, GpioFlag.GPIO_FLAG_DEFHIGH],
        Event.printf "GPIO request: %x\n" [PfArg.int cs_handle] ]
    if cs_handle = 0 then (cs_handle, t_init ++ t_req)
    else (cs_handle, t_init ++ t_req ++ flash_commands cfg hal cs_handle buf)

/-- The calls after the `do` block and before the idle loop. -/
def teardown (cfg : Config) (cs_handle : Int) : List Event :=
  Event.spi_hw_free (SPI_HW_PORT cfg) ::
    (if cfg.use_spi_hw_chipselect then []
     else if cs_handle ≠ 0 then [Event.gpio_free cs_handle] else [])

/-- The first `n` iterations of `while (1) { sleep(1); }`. -/
def idle_loop : Nat → List Event
  | 0 => []
  | n + 1 => Event.sleep 1 :: idle_loop n

/-- The calls `main` makes up to its `n`-th idle iteration.  `main` never
returns: the idle loop has no exit, so a run is the family of these prefixes. -/
def main (cfg : Config) (hal : Hal) (n : Nat) : List Event :=
  let t := spi_test cfg hal
  [ Event.logicrom_init (STDIO_PORT cfg), Event.printf "System Ready\n" [] ]
    ++ t.2 ++ teardown cfg t.1 ++ idle_loop n

/-! ## Observations on a run -/

/-- Texts written by the `printf` calls, one per call, in order. -/
def printed : List Event → List String
  | [] => []
  | Event.printf fmt args :: tr => String.mk (render fmt.data args) :: printed tr
  | _ :: tr => printed tr

/-- Whether a call is a `printf`. -/
def Event.is_printf : Event → Bool
  | Event.printf _ _ => true
  | _ => false

/-- The calls other than `printf`, in order. -/
def hal_calls (tr : List Event) : List Event := tr.filter (fun e => !e.is_printf)

/-- Whether a call is a `spi_hw_transfer`. -/
def Event.is_transfer : Event → Bool
  | Event.spi_hw_transfer _ _ _ _ => true
  | _ => false

/-- Whether a call is a `gpio_request`. -/
def Event.is_gpio_request : Event → Bool
  | Event.gpio_request _ _ => true
  | _ => false

/-- Whether a call drives chip-select: `gpio_write` or `spi_hw_cscontrol`. -/
def Event.is_cs_write : Event → Bool
  | Event.gpio_write _ _ => true
  | Event.spi_hw_cscontrol _ _ => true
  | _ => false

/-- Whether a call is a `gpio_free`. -/
def Event.is_gpio_free : Event → Bool
  | Event.gpio_free _ => true
  | _ => false

/-- Whether a call is a `spi_hw_free`. -/
def Event.is_spi_hw_free : Event → Bool
  | Event.spi_hw_free _ => true
  | _ => false

/-- Whether a call is a `printf` whose output starts with `SPI Flash ID`. -/
def Event.is_report : Event → Bool
  | Event.printf fmt args => "SPI Flash ID".data.isPrefixOf (render fmt.data args)
  | _ => false

/-- Whether a call is a `printf` whose output starts with `GPIO request`. -/
def Event.is_gpio_line : Event → Bool
  | Event.printf fmt args => "GPIO request".data.isPrefixOf (render fmt.data args)
  | _ => false

/-- In `tr`, the first call equal to `a` is followed, later, by a call equal to `b`. -/
def occurs_before (a b : Event) : List Event → Bool
  | [] => false
  | e :: tr => if e = a then decide (b ∈ tr) else occurs_before a b tr

/-- Chip-select discipline along a trace, `asserted` telling whether the line
is driven 0 at the start: a write of 0 only when deasserted, a write of 1 only
when asserted, a transfer only when asserted, and the line deasserted at the end. -/
def cs_discipline : Bool → List Event → Bool
  | asserted, [] => !asserted
  | asserted, Event.gpio_write _ level :: tr =>
      if level = 0 then !asserted && cs_discipline true tr
      else asserted && cs_discipline false tr
  | asserted, Event.spi_hw_cscontrol _ level :: tr =>
      if level = 0 then !asserted && cs_discipline true tr
      else asserted && cs_discipline false tr
  | asserted, Event.spi_hw_transfer _ _ _ _ :: tr => asserted && cs_discipline asserted tr
  | asserted, _ :: tr => cs_discipline asserted tr

/-- The `printf` call of the report, made after the read transfer stored `hal.rx0`, `hal.rx1`, `hal.rx2`. -/
def report_call (hal : Hal) : Event :=
  Event.printf "SPI Flash ID: %s[%02X%02X%02X]\n\n"
    [ PfArg.str (vendor_of spif_vlist (hal.rx0 % 256)),
      PfArg.int ((hal.rx0 % 256 : Nat) : Int), PfArg.int ((hal.rx1 % 256 : Nat) : Int),
      PfArg.int ((hal.rx2 % 256 : Nat) : Int) ]

/-! ## Vendor lookup as the specification words it -/

/-- The first entry of `tbl`, in table order, whose id is `b`. -/
def first_match (tbl : List spif_vendor_t) (b : Nat) : Option spif_vendor_t :=
  tbl.find? (fun e => decide (e.id = b))

/-- Name of the first entry whose id is `b`, `"Unknown"` when there is none. -/
def vendor_name_spec (tbl : List spif_vendor_t) (b : Nat) : String :=
  match first_match tbl b with
  | some e => e.vendor
  | none => "Unknown"

/-- Value of a decimal numeral: the number its digit characters denote, most
significant digit first. -/
def dec_nat_value (cs : List Char) : Nat :=
  cs.foldl (fun acc c => 10 * acc + (c.toNat - 48)) 0

/-- Two-digit upper-case hexadecimal numeral of a byte. -/
def hex2_spec (b : Nat) : String :=
  String.mk ["0123456789ABCDEF".data.getD (b / 16) '?', "0123456789ABCDEF".data.getD (b % 16) '?']

/-! ## Concrete builds used as examples -/

/-- Default build: GPIO chip-select on `GPIO_0`, port `SPI_PORT_0`. -/
def gpio_build : Config := ⟨false, false, false⟩

/-- Build with `USE_SPI_HW_CHIPSELECT` on `PLATFORM_LOGICROM_SPARK`. -/
def hwcs_build : Config := ⟨true, true, true⟩

/-! ## Lemmas on the search loop -/

theorem vendor_scan_find (tbl : List spif_vendor_t) (b : Nat) :
    ∀ todo i, i + todo = tbl.length →
      match (tbl.drop i).find? (fun e => decide (e.id = b)) with
      | some e => vendor_scan tbl b todo i < tbl.length ∧
          entry_at tbl (vendor_scan tbl b todo i) = e
      | none => vendor_scan tbl b todo i = tbl.length := by
  intro todo
  induction todo with
  | zero =>
    intro i hi
    have h : tbl.drop i = [] := List.drop_eq_nil_of_le (by omega)
    simp [h, vendor_scan]; omega
  | succ todo ih =>
    intro i hi
    have hlt : i < tbl.length := by omega
    have hd : tbl.drop i = tbl[i] :: tbl.drop (i + 1) := List.drop_eq_getElem_cons hlt
    have he : entry_at tbl i = tbl[i] := by simp [entry_at, List.getD_eq_getElem, hlt]
    rw [hd]
    by_cases hb : tbl[i].id = b
    · simp [List.find?, vendor_scan, he, hb, hlt]
    · have := ih (i + 1) (by omega)
      simp [List.find?, vendor_scan, he, hb]
      exact this

theorem vendor_of_eq_spec (tbl : List spif_vendor_t) (b : Nat) :
    vendor_of tbl b = vendor_name_spec tbl b := by
  have h := vendor_scan_find tbl b tbl.length 0 (by simp)
  simp only [List.drop_zero] at h
  unfold vendor_of vendor_name_spec first_match
  cases hf : tbl.find? (fun e => decide (e.id = b)) with
  | none => rw [hf] at h; simp [h]
  | some e =>
    rw [hf] at h
    simp only
    rw [if_neg (by omega), h.2]

/-! ## The four shapes of a run -/

theorem idle_loop_eq_replicate (n : Nat) : idle_loop n = List.replicate n (Event.sleep 1) := by
  induction n with
  | zero => rfl
  | succ n ih => simp [idle_loop, ih, List.replicate_succ]

theorem main_init_failed (cfg : Config) (hal : Hal) (n : Nat) (h : hal.spi_hw_init_ret ≠ 0) :
    main cfg hal n =
      [ Event.logicrom_init (STDIO_PORT cfg), Event.printf "System Ready\n" [],
        Event.spi_hw_init (SPI_HW_PORT cfg) false 10000 SpiMode.SPI_MODE0 SpiCsPol.SPI_CSPOL_LOW,
        Event.printf "SPI Init: %d\n\n" [PfArg.int hal.spi_hw_init_ret],
        Event.spi_hw_free (SPI_HW_PORT cfg) ] ++ idle_loop n := by
  cases hc : cfg.use_spi_hw_chipselect <;> simp [main, spi_test, teardown, h, hc]

theorem main_request_failed (cfg : Config) (hal : Hal) (n : Nat)
    (hc : cfg.use_spi_hw_chipselect = false) (h : hal.spi_hw_init_ret = 0)
    (hg : hal.gpio_request_ret = 0) :
    main cfg hal n =
      [ Event.logicrom_init (STDIO_PORT cfg), Event.printf "System Ready\n" [],
        Event.spi_hw_init (SPI_HW_PORT cfg) false 10000 SpiMode.SPI_MODE0 SpiCsPol.SPI_CSPOL_LOW,
        Event.printf "SPI Init: %d\n\n" [PfArg.int 0],
        Event.gpio_request ( CS_GPIO cfg) [GpioFlag.GPIO_FLAG_OUTPUT, GpioFlag.GPIO_FLAG_DEFHIGH],
        Event.printf "GPIO request: %x\n" [PfArg.int 0],
        Event.spi_hw_free (SPI_HW_PORT cfg) ] ++ idle_loop n := by
  simp [main, spi_test, teardown, h, hc, hg]

theorem main_gpio_ok (cfg : Config) (hal : Hal) (n : Nat)
    (hc : cfg.use_spi_hw_chipselect = false) (h : hal.spi_hw_init_ret = 0)
    (hg : hal.gpio_request_ret ≠ 0) :
    main cfg hal n =
      [ Event.logicrom_init (STDIO_PORT cfg), Event.printf "System Ready\n" [],
        Event.spi_hw_init (SPI_HW_PORT cfg) false 10000 SpiMode.SPI_MODE0 SpiCsPol.SPI_CSPOL_LOW,
        Event.printf "SPI Init: %d\n\n" [PfArg.int 0],
        Event.gpio_request ( CS_GPIO cfg) [GpioFlag.GPIO_FLAG_OUTPUT, GpioFlag.GPIO_FLAG_DEFHIGH],
        Event.printf "GPIO request: %x\n" [PfArg.int hal.gpio_request_ret],
        Event.gpio_write hal.gpio_request_ret 0,
        Event.spi_hw_transfer (SPI_HW_PORT cfg) (some [0x66]) false 1,
        Event.gpio_write hal.gpio_request_ret 1,
        Event.gpio_write hal.gpio_request_ret 0,
        Event.spi_hw_transfer (SPI_HW_PORT cfg) (some [0x99]) false 1,
        Event.gpio_write hal.gpio_request_ret 1,
        Event.os_task_sleep 100,
        Event.gpio_write hal.gpio_request_ret 0,
        Event.spi_hw_transfer (SPI_HW_PORT cfg) (some [0x9F]) false 1,
        Event.spi_hw_transfer (SPI_HW_PORT cfg) none true 3,
        Event.gpio_write hal.gpio_request_ret 1,
        report_call hal,
        Event.spi_hw_free (SPI_HW_PORT cfg),
        Event.gpio_free hal.gpio_request_ret ] ++ idle_loop n := by
  simp [main, spi_test, teardown, flash_commands, cs_write, store_rx, report_call, h, hc, hg,
    SPIF_ENABLE_RESET, SPIF_RESET_DEVICE, SPIF_READ_JEDECID]

theorem main_hwcs_ok (cfg : Config) (hal : Hal) (n : Nat)
    (hc : cfg.use_spi_hw_chipselect = true) (h : hal.spi_hw_init_ret = 0) :
    main cfg hal n =
      [ Event.logicrom_init (STDIO_PORT cfg), Event.printf "System Ready\n" [],
        Event.spi_hw_init (SPI_HW_PORT cfg) false 10000 SpiMode.SPI_MODE0 SpiCsPol.SPI_CSPOL_LOW,
        Event.printf "SPI Init: %d\n\n" [PfArg.int 0],
        Event.spi_hw_cscontrol (SPI_HW_PORT cfg) 0,
        Event.spi_hw_transfer (SPI_HW_PORT cfg) (some [0x66]) false 1,
        Event.spi_hw_cscontrol (SPI_HW_PORT cfg) 1,
        Event.spi_hw_cscontrol (SPI_HW_PORT cfg) 0,
        Event.spi_hw_transfer (SPI_HW_PORT cfg) (some [0x99]) false 1,
        Event.spi_hw_cscontrol (SPI_HW_PORT cfg) 1,
        Event.os_task_sleep 100,
        Event.spi_hw_cscontrol (SPI_HW_PORT cfg) 0,
        Event.spi_hw_transfer (SPI_HW_PORT cfg) (some [0x9F]) false 1,
        Event.spi_hw_transfer (SPI_HW_PORT cfg) none true 3,
        Event.spi_hw_cscontrol (SPI_HW_PORT cfg) 1,
        report_call hal,
        Event.spi_hw_free (SPI_HW_PORT cfg) ] ++ idle_loop n := by
  simp [main, spi_test, teardown, flash_commands, cs_write, store_rx, report_call, h, hc,
    SPIF_ENABLE_RESET, SPIF_RESET_DEVICE, SPIF_READ_JEDECID]

theorem printed_idle_loop (n : Nat) : printed (idle_loop n) = [] := by
  induction n with
  | zero => rfl
  | succ n ih => simp [idle_loop, printed, ih]

theorem hal_calls_idle_loop (n : Nat) : hal_calls (idle_loop n) = idle_loop n := by
  induction n with
  | zero => rfl
  | succ n ih =>
    have h : hal_calls (Event.sleep 1 :: idle_loop n) = Event.sleep 1 :: hal_calls (idle_loop n) := rfl
    rw [idle_loop, h, ih]

theorem mem_idle_loop (e : Event) (n : Nat) (h : e ∈ idle_loop n) : e = Event.sleep 1 := by
  rw [idle_loop_eq_replicate] at h
  exact (List.mem_replicate.mp h).2

theorem cs_discipline_idle_loop (n : Nat) : cs_discipline false (idle_loop n) = true := by
  induction n with
  | zero => rfl
  | succ n ih => simp [idle_loop, cs_discipline, ih]

theorem filter_idle_loop (p : Event → Bool) (hp : p (Event.sleep 1) = false) (n : Nat) :
    (idle_loop n).filter p = [] := by
  induction n with
  | zero => rfl
  | succ n ih => simp [idle_loop, List.filter_cons, hp, ih]

theorem printed_append (a b : List Event) : printed (a ++ b) = printed a ++ printed b := by
  induction a with
  | nil => rfl
  | cons e a ih => cases e <;> simp [printed, ih]

theorem hal_calls_append (a b : List Event) : hal_calls (a ++ b) = hal_calls a ++ hal_calls b := by
  simp [hal_calls]

/-! ## Claims -/

/-- C3: when `spi_hw_init` returns a non-zero code, the run makes no
`spi_hw_transfer` call, no `gpio_request`, `gpio_write` or `spi_hw_cscontrol`
call, and no `printf` whose output starts with `SPI Flash ID`; its calls other
than `printf` are `logicrom_init`, `spi_hw_init`, `spi_hw_free` and the idle
`sleep(1)` calls. -/
theorem init_failure_skips_sequence (cfg : Config) (hal : Hal) (n : Nat)
    (h : hal.spi_hw_init_ret ≠ 0) :
    (∀ e ∈ main cfg hal n, e.is_transfer = false ∧ e.is_gpio_request = false ∧
        e.is_cs_write = false ∧ e.is_report = false) ∧
    hal_calls (main cfg hal n) =
      [ Event.logicrom_init (STDIO_PORT cfg),
        Event.spi_hw_init (SPI_HW_PORT cfg) false 10000 SpiMode.SPI_MODE0 SpiCsPol.SPI_CSPOL_LOW,
        Event.spi_hw_free (SPI_HW_PORT cfg) ] ++ List.replicate n (Event.sleep 1) := by
  rw [main_init_failed cfg hal n h]
  refine ⟨?_, ?_⟩
  · intro e he
    simp only [List.mem_append, List.mem_cons, List.mem_singleton, List.not_mem_nil, or_false] at he
    rcases he with (rfl | rfl | rfl | rfl | rfl) | he
    · simp [Event.is_transfer, Event.is_gpio_request, Event.is_cs_write, Event.is_report]
    · simp [Event.is_transfer, Event.is_gpio_request, Event.is_cs_write, Event.is_report, render, List.isPrefixOf]
    · simp [Event.is_transfer, Event.is_gpio_request, Event.is_cs_write, Event.is_report]
    · simp [Event.is_transfer, Event.is_gpio_request, Event.is_cs_write, Event.is_report, render, List.isPrefixOf]
    · simp [Event.is_transfer, Event.is_gpio_request, Event.is_cs_write, Event.is_report]
    · rw [mem_idle_loop e n he]
      simp [Event.is_transfer, Event.is_gpio_request, Event.is_cs_write, Event.is_report]
  · rw [hal_calls_append, hal_calls_idle_loop, idle_loop_eq_replicate]
    rfl

theorem init_failure_skips_sequence_witness :
    (⟨-1, 7, 1, 2, 3⟩ : Hal).spi_hw_init_ret ≠ 0 ∧
    hal_calls (main gpio_build ⟨-1, 7, 1, 2, 3⟩ 2) =
      [ Event.logicrom_init "/dev/ttyS0",
        Event.spi_hw_init SpiPort.SPI_PORT_0 false 10000 SpiMode.SPI_MODE0 SpiCsPol.SPI_CSPOL_LOW,
        Event.spi_hw_free SpiPort.SPI_PORT_0, Event.sleep 1, Event.sleep 1 ] :=
  ⟨by decide, (init_failure_skips_sequence gpio_build ⟨-1, 7, 1, 2, 3⟩ 2 (by decide)).2⟩

/-- C4: in the GPIO chip-select variant, when `spi_hw_init` returns 0 and
`gpio_request` returns the handle 0, the run makes no `spi_hw_transfer` call, no
chip-select write, no `printf` whose output starts with `SPI Flash ID` and no
`gpio_free` call, and it calls `spi_hw_free` on the bus port exactly once. -/
theorem request_failure_releases_bus (cfg : Config) (hal : Hal) (n : Nat)
    (hc : cfg.use_spi_hw_chipselect = false) (h : hal.spi_hw_init_ret = 0)
    (hg : hal.gpio_request_ret = 0) :
    (∀ e ∈ main cfg hal n, e.is_transfer = false ∧ e.is_cs_write = false ∧
        e.is_report = false ∧ e.is_gpio_free = false) ∧
    (main cfg hal n).filter Event.is_spi_hw_free = [Event.spi_hw_free (SPI_HW_PORT cfg)] ∧
    hal_calls (main cfg hal n) =
      [ Event.logicrom_init (STDIO_PORT cfg),
        Event.spi_hw_init (SPI_HW_PORT cfg) false 10000 SpiMode.SPI_MODE0 SpiCsPol.SPI_CSPOL_LOW,
        Event.gpio_request ( CS_GPIO cfg) [GpioFlag.GPIO_FLAG_OUTPUT, GpioFlag.GPIO_FLAG_DEFHIGH],
        Event.spi_hw_free (SPI_HW_PORT cfg) ] ++ List.replicate n (Event.sleep 1) := by
  rw [main_request_failed cfg hal n hc h hg]
  refine ⟨?_, ?_, ?_⟩
  · intro e he
    rw [List.mem_append] at he
    rcases he with he | he
    · revert e
      simp [Event.is_transfer, Event.is_cs_write, Event.is_report, Event.is_gpio_free, render,
        List.isPrefixOf]
    · rw [mem_idle_loop e n he]
      simp [Event.is_transfer, Event.is_cs_write, Event.is_report, Event.is_gpio_free]
  · rw [List.filter_append, filter_idle_loop _ rfl]
    simp [List.filter_cons, Event.is_spi_hw_free]
  · rw [hal_calls_append, hal_calls_idle_loop, idle_loop_eq_replicate]
    rfl

theorem request_failure_releases_bus_witness :
    gpio_build.use_spi_hw_chipselect = false ∧ (⟨0, 0, 1, 2, 3⟩ : Hal).spi_hw_init_ret = 0 ∧
    (⟨0, 0, 1, 2, 3⟩ : Hal).gpio_request_ret = 0 ∧
    hal_calls (main gpio_build ⟨0, 0, 1, 2, 3⟩ 1) =
      [ Event.logicrom_init "/dev/ttyS0",
        Event.spi_hw_init SpiPort.SPI_PORT_0 false 10000 SpiMode.SPI_MODE0 SpiCsPol.SPI_CSPOL_LOW,
        Event.gpio_request GpioLine.GPIO_0 [GpioFlag.GPIO_FLAG_OUTPUT, GpioFlag.GPIO_FLAG_DEFHIGH],
        Event.spi_hw_free SpiPort.SPI_PORT_0, Event.sleep 1 ] :=
  ⟨by decide, by decide, by decide,
    (request_failure_releases_bus gpio_build ⟨0, 0, 1, 2, 3⟩ 1 (by decide) (by decide)
      (by decide)).2.2⟩

theorem digits_rev_ten (fuel : Nat) :
    ∀ n, n < fuel → (∀ d ∈ digits_rev 10 fuel n, d < 10) ∧
      (digits_rev 10 fuel n).foldr (fun d acc => d + 10 * acc) 0 = n := by
  induction fuel with
  | zero => intro n hn; omega
  | succ fuel ih =>
    intro n hn
    by_cases h : n < 10
    · simp [digits_rev, h]
    · have hlt : n / 10 < fuel := by omega
      obtain ⟨h1, h2⟩ := ih (n / 10) hlt
      refine ⟨?_, ?_⟩
      · intro d hd
        simp only [digits_rev, h, if_false, List.mem_cons] at hd
        rcases hd with rfl | hd
        · exact Nat.mod_lt _ (by decide)
        · exact h1 d hd
      · simp only [digits_rev, h, if_false, List.foldr_cons, h2]
        omega

theorem digit_char_value : ∀ d, d < 10 → (digit_char false d).toNat - 48 = d := by
  decide

theorem dec_nat_value_digits (ds : List Nat) (h : ∀ d ∈ ds, d < 10) :
    dec_nat_value ((ds.reverse).map (digit_char false)) =
      ds.foldr (fun d acc => d + 10 * acc) 0 := by
  unfold dec_nat_value
  rw [List.foldl_map, List.foldl_reverse]
  induction ds with
  | nil => rfl
  | cons d ds ih =>
    simp only [List.foldr_cons]
    rw [ih (fun x hx => h x (List.mem_cons_of_mem _ hx)),
      digit_char_value d (h d (List.mem_cons_self _ _))]
    omega

/-- The conversion `%d` writes a minus sign for a negative value and then the
decimal numeral of the absolute value. -/
theorem fmt_d_decimal (v : Int) :
    fmt_d v = (if v < 0 then ['-'] else []) ++ fmt_unsigned 10 false v.natAbs ∧
    dec_nat_value (fmt_unsigned 10 false v.natAbs) = v.natAbs := by
  refine ⟨?_, ?_⟩
  · unfold fmt_d
    by_cases hv : v < 0
    · have : (-v).toNat = v.natAbs := by omega
      simp [hv, this]
    · have : v.toNat = v.natAbs := by omega
      simp [hv, this]
  · obtain ⟨h1, h2⟩ := digits_rev_ten (v.natAbs + 1) v.natAbs (Nat.lt_succ_self _)
    unfold fmt_unsigned
    rw [dec_nat_value_digits _ h1, h2]

/-- C8: when `spi_hw_init` returns a non-zero code `r`, the texts written to
standard output are exactly `System Ready` and `SPI Init: ` followed by `r` in
decimal (each with its line end; the second ends with an empty line), where
the decimal text is a minus sign for negative `r` and the numeral whose value
is the absolute value of `r`; no `printf` output starts with `GPIO request` or
`SPI Flash ID`, and after releasing the bus the run consists of `sleep(1)`
calls only, for as many idle iterations as are observed. -/
theorem init_failure_output (cfg : Config) (hal : Hal) (n : Nat)
    (h : hal.spi_hw_init_ret ≠ 0) :
    printed (main cfg hal n) =
      ["System Ready\n", "SPI Init: " ++ String.mk (fmt_d hal.spi_hw_init_ret) ++ "\n\n"] ∧
    (fmt_d hal.spi_hw_init_ret =
        (if hal.spi_hw_init_ret < 0 then ['-'] else []) ++
          fmt_unsigned 10 false hal.spi_hw_init_ret.natAbs ∧
      dec_nat_value (fmt_unsigned 10 false hal.spi_hw_init_ret.natAbs) =
        hal.spi_hw_init_ret.natAbs) ∧
    (∀ e ∈ main cfg hal n, e.is_gpio_line = false ∧ e.is_report = false) ∧
    main cfg hal n =
      [ Event.logicrom_init (STDIO_PORT cfg), Event.printf "System Ready\n" [],
        Event.spi_hw_init (SPI_HW_PORT cfg) false 10000 SpiMode.SPI_MODE0 SpiCsPol.SPI_CSPOL_LOW,
        Event.printf "SPI Init: %d\n\n" [PfArg.int hal.spi_hw_init_ret],
        Event.spi_hw_free (SPI_HW_PORT cfg) ] ++ List.replicate n (Event.sleep 1) := by
  rw [main_init_failed cfg hal n h]
  refine ⟨?_, fmt_d_decimal hal.spi_hw_init_ret, ?_, ?_⟩
  · rw [printed_append, printed_idle_loop]
    simp [printed, render]
    rfl
  · intro e he
    rw [List.mem_append] at he
    rcases he with he | he
    · revert e
      simp [Event.is_gpio_line, Event.is_report, render, List.isPrefixOf]
    · rw [mem_idle_loop e n he]
      simp [Event.is_gpio_line, Event.is_report]
  · rw [idle_loop_eq_replicate]

theorem init_failure_output_witness :
    (⟨-1, 7, 1, 2, 3⟩ : Hal).spi_hw_init_ret ≠ 0 ∧
    printed (main gpio_build ⟨-1, 7, 1, 2, 3⟩ 3) = ["System Ready\n", "SPI Init: -1\n\n"] ∧
    main gpio_build ⟨-1, 7, 1, 2, 3⟩ 3 =
      [ Event.logicrom_init "/dev/ttyS0", Event.printf "System Ready\n" [],
        Event.spi_hw_init SpiPort.SPI_PORT_0 false 10000 SpiMode.SPI_MODE0 SpiCsPol.SPI_CSPOL_LOW,
        Event.printf "SPI Init: %d\n\n" [PfArg.int (-1)],
        Event.spi_hw_free SpiPort.SPI_PORT_0, Event.sleep 1, Event.sleep 1, Event.sleep 1 ] :=
  ⟨by decide,
    (init_failure_output gpio_build ⟨-1, 7, 1, 2, 3⟩ 3 (by decide)).1.trans (by decide),
    (init_failure_output gpio_build ⟨-1, 7, 1, 2, 3⟩ 3 (by decide)).2.2.2⟩

set_option maxRecDepth 100000 in
theorem fmt_02X_byte : ∀ m, m < 256 → fmt_02X ((m : Nat) : Int) = (hex2_spec m).data := by
  decide

theorem render_report (v : String) (a b c : Nat) :
    String.mk (render "SPI Flash ID: %s[%02X%02X%02X]\n\n".data
        [ PfArg.str v, PfArg.int ((a % 256 : Nat) : Int), PfArg.int ((b % 256 : Nat) : Int),
          PfArg.int ((c % 256 : Nat) : Int) ]) =
      "SPI Flash ID: " ++ v ++ "[" ++ hex2_spec (a % 256) ++ hex2_spec (b % 256) ++
        hex2_spec (c % 256) ++ "]" ++ "\n\n" := by
  simp only [render]
  rw [fmt_02X_byte _ (Nat.mod_lt _ (by decide)), fmt_02X_byte _ (Nat.mod_lt _ (by decide)),
    fmt_02X_byte _ (Nat.mod_lt _ (by decide))]
  apply String.ext
  simp

theorem report_call_is_report (hal : Hal) : (report_call hal).is_report = true := by
  simp [report_call, Event.is_report, render, List.isPrefixOf]

/-- A call of a run whose output starts with `SPI Flash ID` is the report call. -/
theorem report_of_is_report (cfg : Config) (hal : Hal) (n : Nat) (e : Event)
    (he : e ∈ main cfg hal n) (hr : e.is_report = true) : e = report_call hal := by
  by_cases h : hal.spi_hw_init_ret = 0
  · cases hc : cfg.use_spi_hw_chipselect
    · by_cases hg : hal.gpio_request_ret = 0
      · rw [main_request_failed cfg hal n hc h hg, List.mem_append] at he
        rcases he with he | he
        · revert hr; revert e
          simp [Event.is_report, render, List.isPrefixOf]
        · rw [mem_idle_loop e n he] at hr; simp [Event.is_report] at hr
      · rw [main_gpio_ok cfg hal n hc h hg, List.mem_append] at he
        rcases he with he | he
        · revert hr; revert e
          simp [Event.is_report, render, List.isPrefixOf, report_call]
        · rw [mem_idle_loop e n he] at hr; simp [Event.is_report] at hr
    · rw [main_hwcs_ok cfg hal n hc h, List.mem_append] at he
      rcases he with he | he
      · revert hr; revert e
        simp [Event.is_report, render, List.isPrefixOf, report_call]
      · rw [mem_idle_loop e n he] at hr; simp [Event.is_report] at hr
  · rw [main_init_failed cfg hal n h, List.mem_append] at he
    rcases he with he | he
    · revert hr; revert e
      simp [Event.is_report, render, List.isPrefixOf]
    · rw [mem_idle_loop e n he] at hr; simp [Event.is_report] at hr

/-- C1: the vendor name computed by the search loop of `main` over `spif_vlist`
is, for every byte value `b`, the name of the first entry in table order whose
id is `b` and `"Unknown"` when no entry has id `b` (this holds over any table,
duplicates included); the eight ids of the table give their names, every other
value gives `"Unknown"`, and the `%s` argument of the report call of a run is
that name for the first byte stored by the read transfer. -/
theorem vendor_lookup_first_match :
    (∀ tbl b, vendor_of tbl b = vendor_name_spec tbl b) ∧
    (vendor_of spif_vlist 0x1F = "Atmel" ∧ vendor_of spif_vlist 0xC8 = "GigaDevice" ∧
      vendor_of spif_vlist 0x2C = "Micron" ∧ vendor_of spif_vlist 0xBF = "SST" ∧
      vendor_of spif_vlist 0xC2 = "Macronix" ∧ vendor_of spif_vlist 0xEF = "Winbond" ∧
      vendor_of spif_vlist 0xDA = "Winbond" ∧ vendor_of spif_vlist 0x20 = "XMC") ∧
    (∀ b, b ∉ [0x1F, 0xC8, 0x2C, 0xBF, 0xC2, 0xEF, 0xDA, 0x20] →
      vendor_of spif_vlist b = "Unknown") ∧
    vendor_of [⟨0x1F, "Atmel"⟩, ⟨0x1F, "Other"⟩] 0x1F = "Atmel" ∧
    (∀ cfg hal n e, e ∈ main cfg hal n → e.is_report = true →
      e = Event.printf "SPI Flash ID: %s[%02X%02X%02X]\n\n"
        [ PfArg.str (vendor_name_spec spif_vlist (hal.rx0 % 256)),
          PfArg.int ((hal.rx0 % 256 : Nat) : Int), PfArg.int ((hal.rx1 % 256 : Nat) : Int),
          PfArg.int ((hal.rx2 % 256 : Nat) : Int) ]) := by
  refine ⟨vendor_of_eq_spec, by decide, ?_, by decide, ?_⟩
  · intro b hb
    simp only [List.mem_cons, List.mem_singleton, List.not_mem_nil, or_false, not_or] at hb
    obtain ⟨h1, h2, h3, h4, h5, h6, h7, h8⟩ := hb
    rw [vendor_of_eq_spec]
    simp [vendor_name_spec, first_match, spif_vlist, List.find?, Ne.symm h1, Ne.symm h2,
      Ne.symm h3, Ne.symm h4, Ne.symm h5, Ne.symm h6, Ne.symm h7, Ne.symm h8]
  · intro cfg hal n e he hr
    rw [report_of_is_report cfg hal n e he hr, report_call, vendor_of_eq_spec]

theorem vendor_lookup_first_match_witness :
    report_call ⟨0, 7, 0xC8, 0x40, 0x18⟩ ∈ main gpio_build ⟨0, 7, 0xC8, 0x40, 0x18⟩ 1 ∧
    report_call ⟨0, 7, 0xC8, 0x40, 0x18⟩ =
      Event.printf "SPI Flash ID: %s[%02X%02X%02X]\n\n"
        [PfArg.str "GigaDevice", PfArg.int 0xC8, PfArg.int 0x40, PfArg.int 0x18] :=
  ⟨by decide,
    (vendor_lookup_first_match.2.2.2.2 gpio_build ⟨0, 7, 0xC8, 0x40, 0x18⟩ 1 _ (by decide)
      (by decide)).trans (by decide)⟩

/-- C7: on a successful run (`spi_hw_init` returned 0 and, in the GPIO
variant, the handle is non-zero) the last text printed is `SPI Flash ID: `,
the name of the first table entry matching the first byte read (or `Unknown`),
`[`, the three bytes read each as two upper-case hexadecimal digits, `]` and the
line end; it is the only printed text starting with `SPI Flash ID`. -/
theorem report_line_format (cfg : Config) (hal : Hal) (n : Nat)
    (h : hal.spi_hw_init_ret = 0)
    (hcs : cfg.use_spi_hw_chipselect = true ∨ hal.gpio_request_ret ≠ 0) :
    (printed (main cfg hal n)).getLast? =
      some ("SPI Flash ID: " ++ vendor_name_spec spif_vlist (hal.rx0 % 256) ++ "[" ++
        hex2_spec (hal.rx0 % 256) ++ hex2_spec (hal.rx1 % 256) ++ hex2_spec (hal.rx2 % 256) ++
        "]" ++ "\n\n") ∧
    ((main cfg hal n).filter Event.is_report).length = 1 := by
  cases hc : cfg.use_spi_hw_chipselect
  · have hg : hal.gpio_request_ret ≠ 0 := by
      rcases hcs with hcs | hcs
      · rw [hc] at hcs; cases hcs
      · exact hcs
    rw [main_gpio_ok cfg hal n hc h hg]
    refine ⟨?_, ?_⟩
    · rw [printed_append, printed_idle_loop, List.append_nil]
      simp only [printed, report_call, List.getLast?_cons_cons, List.getLast?_singleton]
      rw [render_report, vendor_of_eq_spec]
    · rw [List.filter_append, filter_idle_loop _ rfl]
      simp [List.filter_cons, Event.is_report, render, List.isPrefixOf, report_call]
  · rw [main_hwcs_ok cfg hal n hc h]
    refine ⟨?_, ?_⟩
    · rw [printed_append, printed_idle_loop, List.append_nil]
      simp only [printed, report_call, List.getLast?_cons_cons, List.getLast?_singleton]
      rw [render_report, vendor_of_eq_spec]
    · rw [List.filter_append, filter_idle_loop _ rfl]
      simp [List.filter_cons, Event.is_report, render, List.isPrefixOf, report_call]

theorem report_line_format_witness :
    ((⟨0, 7, 0xC8, 0x40, 0x18⟩ : Hal).spi_hw_init_ret = 0 ∧
      (⟨0, 7, 0xC8, 0x40, 0x18⟩ : Hal).gpio_request_ret ≠ 0 ∧
      (printed (main gpio_build ⟨0, 7, 0xC8, 0x40, 0x18⟩ 1)).getLast? =
        some "SPI Flash ID: GigaDevice[C84018]\n\n") ∧
    ((⟨0, 0, 0, 0, 0⟩ : Hal).spi_hw_init_ret = 0 ∧ hwcs_build.use_spi_hw_chipselect = true ∧
      (printed (main hwcs_build ⟨0, 0, 0, 0, 0⟩ 1)).getLast? =
        some "SPI Flash ID: Unknown[000000]\n\n") :=
  ⟨⟨by decide, by decide,
      (report_line_format gpio_build ⟨0, 7, 0xC8, 0x40, 0x18⟩ 1 (by decide)
        (Or.inr (by decide))).1.trans (by decide)⟩,
    ⟨by decide, by decide,
      (report_line_format hwcs_build ⟨0, 0, 0, 0, 0⟩ 1 (by decide)
        (Or.inl (by decide))).1.trans (by decide)⟩⟩

theorem hal_calls_gpio_ok (cfg : Config) (hal : Hal) (n : Nat)
    (hc : cfg.use_spi_hw_chipselect = false) (h : hal.spi_hw_init_ret = 0)
    (hg : hal.gpio_request_ret ≠ 0) :
    hal_calls (main cfg hal n) =
      [ Event.logicrom_init (STDIO_PORT cfg),
        Event.spi_hw_init (SPI_HW_PORT cfg) false 10000 SpiMode.SPI_MODE0 SpiCsPol.SPI_CSPOL_LOW,
        Event.gpio_request ( CS_GPIO cfg) [GpioFlag.GPIO_FLAG_OUTPUT, GpioFlag.GPIO_FLAG_DEFHIGH],
        Event.gpio_write hal.gpio_request_ret 0,
        Event.spi_hw_transfer (SPI_HW_PORT cfg) (some [0x66]) false 1,
        Event.gpio_write hal.gpio_request_ret 1,
        Event.gpio_write hal.gpio_request_ret 0,
        Event.spi_hw_transfer (SPI_HW_PORT cfg) (some [0x99]) false 1,
        Event.gpio_write hal.gpio_request_ret 1,
        Event.os_task_sleep 100,
        Event.gpio_write hal.gpio_request_ret 0,
        Event.spi_hw_transfer (SPI_HW_PORT cfg) (some [0x9F]) false 1,
        Event.spi_hw_transfer (SPI_HW_PORT cfg) none true 3,
        Event.gpio_write hal.gpio_request_ret 1,
        Event.spi_hw_free (SPI_HW_PORT cfg),
        Event.gpio_free hal.gpio_request_ret ] ++ List.replicate n (Event.sleep 1) := by
  rw [main_gpio_ok cfg hal n hc h hg, hal_calls_append, hal_calls_idle_loop,
    idle_loop_eq_replicate]
  rfl

theorem hal_calls_hwcs_ok (cfg : Config) (hal : Hal) (n : Nat)
    (hc : cfg.use_spi_hw_chipselect = true) (h : hal.spi_hw_init_ret = 0) :
    hal_calls (main cfg hal n) =
      [ Event.logicrom_init (STDIO_PORT cfg),
        Event.spi_hw_init (SPI_HW_PORT cfg) false 10000 SpiMode.SPI_MODE0 SpiCsPol.SPI_CSPOL_LOW,
        Event.spi_hw_cscontrol (SPI_HW_PORT cfg) 0,
        Event.spi_hw_transfer (SPI_HW_PORT cfg) (some [0x66]) false 1,
        Event.spi_hw_cscontrol (SPI_HW_PORT cfg) 1,
        Event.spi_hw_cscontrol (SPI_HW_PORT cfg) 0,
        Event.spi_hw_transfer (SPI_HW_PORT cfg) (some [0x99]) false 1,
        Event.spi_hw_cscontrol (SPI_HW_PORT cfg) 1,
        Event.os_task_sleep 100,
        Event.spi_hw_cscontrol (SPI_HW_PORT cfg) 0,
        Event.spi_hw_transfer (SPI_HW_PORT cfg) (some [0x9F]) false 1,
        Event.spi_hw_transfer (SPI_HW_PORT cfg) none true 3,
        Event.spi_hw_cscontrol (SPI_HW_PORT cfg) 1,
        Event.spi_hw_free (SPI_HW_PORT cfg) ] ++ List.replicate n (Event.sleep 1) := by
  rw [main_hwcs_ok cfg hal n hc h, hal_calls_append, hal_calls_idle_loop,
    idle_loop_eq_replicate]
  rfl

theorem not_mem_idle_loop (e : Event) (n : Nat) (h : e ≠ Event.sleep 1) : e ∉ idle_loop n :=
  fun hm => h (mem_idle_loop e n hm)

/-- C2: in every run that makes the 1-byte write-only transfer of opcode 0x9F,
the calls other than `printf` contain, consecutively, the chip-select write of
0 (`gpio_write(cs_handle, 0)` in the GPIO variant, `spi_hw_cscontrol(port, 0)`
in the hardware chip-select variant), that transfer, the 3-byte read-only
transfer and the chip-select write of 1 (`gpio_write(cs_handle, 1)`, resp.
`spi_hw_cscontrol(port, 1)`); neither transfer occurs before this block, and no
transfer or chip-select write occurs after it. -/
theorem jedec_read_holds_chip_select (cfg : Config) (hal : Hal) (n : Nat)
    (h : Event.spi_hw_transfer (SPI_HW_PORT cfg) (some [0x9F]) false 1 ∈ main cfg hal n) :
    (cfg.use_spi_hw_chipselect = false →
      ∃ pre post,
        hal_calls (main cfg hal n) =
          pre ++
            [ Event.gpio_write hal.gpio_request_ret 0,
              Event.spi_hw_transfer (SPI_HW_PORT cfg) (some [0x9F]) false 1,
              Event.spi_hw_transfer (SPI_HW_PORT cfg) none true 3,
              Event.gpio_write hal.gpio_request_ret 1 ] ++ post ∧
        (∀ e ∈ pre, e ≠ Event.spi_hw_transfer (SPI_HW_PORT cfg) (some [0x9F]) false 1 ∧
          e ≠ Event.spi_hw_transfer (SPI_HW_PORT cfg) none true 3) ∧
        (∀ e ∈ post, e.is_transfer = false ∧ e.is_cs_write = false)) ∧
    (cfg.use_spi_hw_chipselect = true →
      ∃ pre post,
        hal_calls (main cfg hal n) =
          pre ++
            [ Event.spi_hw_cscontrol (SPI_HW_PORT cfg) 0,
              Event.spi_hw_transfer (SPI_HW_PORT cfg) (some [0x9F]) false 1,
              Event.spi_hw_transfer (SPI_HW_PORT cfg) none true 3,
              Event.spi_hw_cscontrol (SPI_HW_PORT cfg) 1 ] ++ post ∧
        (∀ e ∈ pre, e ≠ Event.spi_hw_transfer (SPI_HW_PORT cfg) (some [0x9F]) false 1 ∧
          e ≠ Event.spi_hw_transfer (SPI_HW_PORT cfg) none true 3) ∧
        (∀ e ∈ post, e.is_transfer = false ∧ e.is_cs_write = false)) ∧
    cs_discipline false (main cfg hal n) = true := by
  have h0 : hal.spi_hw_init_ret = 0 := by
    by_contra h0
    rw [main_init_failed cfg hal n h0, List.mem_append] at h
    rcases h with h | h
    · simp at h
    · exact absurd h (not_mem_idle_loop _ n (by simp))
  have hg : cfg.use_spi_hw_chipselect = false → hal.gpio_request_ret ≠ 0 := by
    intro hc hg
    rw [main_request_failed cfg hal n hc h0 hg, List.mem_append] at h
    rcases h with h | h
    · simp at h
    · exact absurd h (not_mem_idle_loop _ n (by simp))
  refine ⟨?_, ?_, ?_⟩
  · intro hc
    refine ⟨[ Event.logicrom_init (STDIO_PORT cfg),
      Event.spi_hw_init (SPI_HW_PORT cfg) false 10000 SpiMode.SPI_MODE0 SpiCsPol.SPI_CSPOL_LOW,
      Event.gpio_request ( CS_GPIO cfg) [GpioFlag.GPIO_FLAG_OUTPUT, GpioFlag.GPIO_FLAG_DEFHIGH],
      Event.gpio_write hal.gpio_request_ret 0,
      Event.spi_hw_transfer (SPI_HW_PORT cfg) (some [0x66]) false 1,
      Event.gpio_write hal.gpio_request_ret 1,
      Event.gpio_write hal.gpio_request_ret 0,
      Event.spi_hw_transfer (SPI_HW_PORT cfg) (some [0x99]) false 1,
      Event.gpio_write hal.gpio_request_ret 1,
      Event.os_task_sleep 100 ],
      [ Event.spi_hw_free (SPI_HW_PORT cfg), Event.gpio_free hal.gpio_request_ret ] ++
        List.replicate n (Event.sleep 1), ?_, ?_, ?_⟩
    · rw [hal_calls_gpio_ok cfg hal n hc h0 (hg hc)]
      simp
    · simp
    · intro e he
      rw [List.mem_append] at he
      rcases he with he | he
      · revert e; simp [Event.is_transfer, Event.is_cs_write]
      · rw [(List.mem_replicate.mp he).2]; simp [Event.is_transfer, Event.is_cs_write]
  · intro hc
    refine ⟨[ Event.logicrom_init (STDIO_PORT cfg),
      Event.spi_hw_init (SPI_HW_PORT cfg) false 10000 SpiMode.SPI_MODE0 SpiCsPol.SPI_CSPOL_LOW,
      Event.spi_hw_cscontrol (SPI_HW_PORT cfg) 0,
      Event.spi_hw_transfer (SPI_HW_PORT cfg) (some [0x66]) false 1,
      Event.spi_hw_cscontrol (SPI_HW_PORT cfg) 1,
      Event.spi_hw_cscontrol (SPI_HW_PORT cfg) 0,
      Event.spi_hw_transfer (SPI_HW_PORT cfg) (some [0x99]) false 1,
      Event.spi_hw_cscontrol (SPI_HW_PORT cfg) 1,
      Event.os_task_sleep 100 ],
      [ Event.spi_hw_free (SPI_HW_PORT cfg) ] ++ List.replicate n (Event.sleep 1), ?_, ?_, ?_⟩
    · rw [hal_calls_hwcs_ok cfg hal n hc h0]
      simp
    · simp
    · intro e he
      rw [List.mem_append] at he
      rcases he with he | he
      · revert e; simp [Event.is_transfer, Event.is_cs_write]
      · rw [(List.mem_replicate.mp he).2]; simp [Event.is_transfer, Event.is_cs_write]
  · cases hc : cfg.use_spi_hw_chipselect
    · rw [main_gpio_ok cfg hal n hc h0 (hg hc)]
      simp [cs_discipline, report_call, cs_discipline_idle_loop]
    · rw [main_hwcs_ok cfg hal n hc h0]
      simp [cs_discipline, report_call, cs_discipline_idle_loop]

theorem jedec_read_holds_chip_select_witness :
    (Event.spi_hw_transfer SpiPort.SPI_PORT_0 (some [0x9F]) false 1 ∈
        main gpio_build ⟨0, 7, 0xC8, 0x40, 0x18⟩ 1 ∧
      gpio_build.use_spi_hw_chipselect = false ∧
      ∃ pre post,
        hal_calls (main gpio_build ⟨0, 7, 0xC8, 0x40, 0x18⟩ 1) =
          pre ++
            [ Event.gpio_write 7 0,
              Event.spi_hw_transfer SpiPort.SPI_PORT_0 (some [0x9F]) false 1,
              Event.spi_hw_transfer SpiPort.SPI_PORT_0 none true 3,
              Event.gpio_write 7 1 ] ++ post ∧
        (∀ e ∈ pre, e ≠ Event.spi_hw_transfer SpiPort.SPI_PORT_0 (some [0x9F]) false 1 ∧
          e ≠ Event.spi_hw_transfer SpiPort.SPI_PORT_0 none true 3) ∧
        (∀ e ∈ post, e.is_transfer = false ∧ e.is_cs_write = false)) ∧
    (Event.spi_hw_transfer SpiPort.SPI_PORT_1 (some [0x9F]) false 1 ∈
        main hwcs_build ⟨0, 0, 0xC8, 0x40, 0x18⟩ 1 ∧
      hwcs_build.use_spi_hw_chipselect = true ∧
      ∃ pre post,
        hal_calls (main hwcs_build ⟨0, 0, 0xC8, 0x40, 0x18⟩ 1) =
          pre ++
            [ Event.spi_hw_cscontrol SpiPort.SPI_PORT_1 0,
              Event.spi_hw_transfer SpiPort.SPI_PORT_1 (some [0x9F]) false 1,
              Event.spi_hw_transfer SpiPort.SPI_PORT_1 none true 3,
              Event.spi_hw_cscontrol SpiPort.SPI_PORT_1 1 ] ++ post ∧
        (∀ e ∈ pre, e ≠ Event.spi_hw_transfer SpiPort.SPI_PORT_1 (some [0x9F]) false 1 ∧
          e ≠ Event.spi_hw_transfer SpiPort.SPI_PORT_1 none true 3) ∧
        (∀ e ∈ post, e.is_transfer = false ∧ e.is_cs_write = false)) :=
  ⟨⟨by decide, by decide,
      (jedec_read_holds_chip_select gpio_build ⟨0, 7, 0xC8, 0x40, 0x18⟩ 1 (by decide)).1
        (by decide)⟩,
    ⟨by decide, by decide,
      (jedec_read_holds_chip_select hwcs_build ⟨0, 0, 0xC8, 0x40, 0x18⟩ 1 (by decide)).2.1
        (by decide)⟩⟩

theorem gpio_request_called (cfg : Config) (hal : Hal) (n : Nat)
    (hreq : ∃ e ∈ main cfg hal n, e.is_gpio_request = true) :
    cfg.use_spi_hw_chipselect = false ∧ hal.spi_hw_init_ret = 0 := by
  obtain ⟨e, he, hr⟩ := hreq
  by_cases h0 : hal.spi_hw_init_ret = 0
  · cases hc : cfg.use_spi_hw_chipselect
    · exact ⟨rfl, h0⟩
    · rw [main_hwcs_ok cfg hal n hc h0, List.mem_append] at he
      rcases he with he | he
      · revert hr; revert e; simp [Event.is_gpio_request, report_call]
      · rw [mem_idle_loop e n he] at hr; simp [Event.is_gpio_request] at hr
  · rw [main_init_failed cfg hal n h0, List.mem_append] at he
    rcases he with he | he
    · revert hr; revert e; simp [Event.is_gpio_request]
    · rw [mem_idle_loop e n he] at hr; simp [Event.is_gpio_request] at hr

/-- C5, as the claim states it, fails: in the run of the default GPIO build
where `spi_hw_init` returns 0 and `gpio_request` returns the handle 7, both
`gpio_free(7)` and `spi_hw_free(SPI_PORT_0)` are called, and the `gpio_free`
call does not precede the `spi_hw_free` call. -/
theorem chip_select_released_first_fails :
    Event.gpio_request GpioLine.GPIO_0 [GpioFlag.GPIO_FLAG_OUTPUT, GpioFlag.GPIO_FLAG_DEFHIGH] ∈
      main gpio_build ⟨0, 7, 0xC8, 0x40, 0x18⟩ 1 ∧
    (⟨0, 7, 0xC8, 0x40, 0x18⟩ : Hal).gpio_request_ret ≠ 0 ∧
    (main gpio_build ⟨0, 7, 0xC8, 0x40, 0x18⟩ 1).filter Event.is_gpio_free = [Event.gpio_free 7] ∧
    (main gpio_build ⟨0, 7, 0xC8, 0x40, 0x18⟩ 1).filter Event.is_spi_hw_free =
      [Event.spi_hw_free SpiPort.SPI_PORT_0] ∧
    occurs_before (Event.gpio_free 7) (Event.spi_hw_free SpiPort.SPI_PORT_0)
      (main gpio_build ⟨0, 7, 0xC8, 0x40, 0x18⟩ 1) = false := by
  decide

/-- C5, amended: in every run in which `gpio_request` was called and returned a
non-zero handle, teardown releases the bus before the chip-select line: the
single `spi_hw_free` call on the bus port is immediately followed by the single
`gpio_free` call on the handle. -/
theorem bus_released_before_chip_select (cfg : Config) (hal : Hal) (n : Nat)
    (hreq : ∃ e ∈ main cfg hal n, e.is_gpio_request = true)
    (hg : hal.gpio_request_ret ≠ 0) :
    occurs_before (Event.spi_hw_free (SPI_HW_PORT cfg)) (Event.gpio_free hal.gpio_request_ret)
      (main cfg hal n) = true ∧
    occurs_before (Event.gpio_free hal.gpio_request_ret) (Event.spi_hw_free (SPI_HW_PORT cfg))
      (main cfg hal n) = false ∧
    (main cfg hal n).filter Event.is_spi_hw_free = [Event.spi_hw_free (SPI_HW_PORT cfg)] ∧
    (main cfg hal n).filter Event.is_gpio_free = [Event.gpio_free hal.gpio_request_ret] ∧
    ∃ pre post, main cfg hal n =
      pre ++ [Event.spi_hw_free (SPI_HW_PORT cfg), Event.gpio_free hal.gpio_request_ret] ++ post := by
  obtain ⟨hc, h0⟩ := gpio_request_called cfg hal n hreq
  have hs : Event.spi_hw_free (SPI_HW_PORT cfg) ∉ idle_loop n :=
    not_mem_idle_loop _ n (by simp)
  rw [main_gpio_ok cfg hal n hc h0 hg]
  refine ⟨?_, ?_, ?_, ?_, ?_⟩
  · simp [occurs_before, report_call]
  · simp [occurs_before, report_call, hs]
  · rw [List.filter_append, filter_idle_loop _ rfl]
    simp [List.filter_cons, Event.is_spi_hw_free, report_call]
  · rw [List.filter_append, filter_idle_loop _ rfl]
    simp [List.filter_cons, Event.is_gpio_free, report_call]
  · exact ⟨[ Event.logicrom_init (STDIO_PORT cfg), Event.printf "System Ready\n" [],
      Event.spi_hw_init (SPI_HW_PORT cfg) false 10000 SpiMode.SPI_MODE0 SpiCsPol.SPI_CSPOL_LOW,
      Event.printf "SPI Init: %d\n\n" [PfArg.int 0],
      Event.gpio_request ( CS_GPIO cfg) [GpioFlag.GPIO_FLAG_OUTPUT, GpioFlag.GPIO_FLAG_DEFHIGH],
      Event.printf "GPIO request: %x\n" [PfArg.int hal.gpio_request_ret],
      Event.gpio_write hal.gpio_request_ret 0,
      Event.spi_hw_transfer (SPI_HW_PORT cfg) (some [0x66]) false 1,
      Event.gpio_write hal.gpio_request_ret 1,
      Event.gpio_write hal.gpio_request_ret 0,
      Event.spi_hw_transfer (SPI_HW_PORT cfg) (some [0x99]) false 1,
      Event.gpio_write hal.gpio_request_ret 1,
      Event.os_task_sleep 100,
      Event.gpio_write hal.gpio_request_ret 0,
      Event.spi_hw_transfer (SPI_HW_PORT cfg) (some [0x9F]) false 1,
      Event.spi_hw_transfer (SPI_HW_PORT cfg) none true 3,
      Event.gpio_write hal.gpio_request_ret 1,
      report_call hal ], idle_loop n, by simp⟩

theorem bus_released_before_chip_select_witness :
    (∃ e ∈ main gpio_build ⟨0, 7, 0xC8, 0x40, 0x18⟩ 1, e.is_gpio_request = true) ∧
    (⟨0, 7, 0xC8, 0x40, 0x18⟩ : Hal).gpio_request_ret ≠ 0 ∧
    occurs_before (Event.spi_hw_free SpiPort.SPI_PORT_0) (Event.gpio_free 7)
      (main gpio_build ⟨0, 7, 0xC8, 0x40, 0x18⟩ 1) = true :=
  ⟨by decide, by decide,
    (bus_released_before_chip_select gpio_build ⟨0, 7, 0xC8, 0x40, 0x18⟩ 1 (by decide)
      (by decide)).1⟩

theorem gpio_request_of_init_ok (cfg : Config) (hal : Hal) (n : Nat)
    (hc : cfg.use_spi_hw_chipselect = false) (h0 : hal.spi_hw_init_ret = 0) :
    ∃ e ∈ main cfg hal n, e.is_gpio_request = true := by
  refine ⟨Event.gpio_request ( CS_GPIO cfg) [GpioFlag.GPIO_FLAG_OUTPUT, GpioFlag.GPIO_FLAG_DEFHIGH],
    ?_, rfl⟩
  by_cases hg : hal.gpio_request_ret = 0
  · rw [main_request_failed cfg hal n hc h0 hg]; simp
  · rw [main_gpio_ok cfg hal n hc h0 hg]; simp

/-- C6: whatever the HAL returns, the run calls `spi_hw_free` exactly once, on
the bus port, and no `spi_hw_transfer` call or chip-select write comes after
it; it calls `gpio_free` exactly once, on the handle returned, when
`gpio_request` was called and returned a non-zero handle, and never otherwise. -/
theorem teardown_always_runs (cfg : Config) (hal : Hal) (n : Nat) :
    (main cfg hal n).filter Event.is_spi_hw_free = [Event.spi_hw_free (SPI_HW_PORT cfg)] ∧
    (∃ pre post, main cfg hal n = pre ++ Event.spi_hw_free (SPI_HW_PORT cfg) :: post ∧
      ∀ e ∈ post, e.is_transfer = false ∧ e.is_cs_write = false) ∧
    (main cfg hal n).filter Event.is_gpio_free =
      if (∃ e ∈ main cfg hal n, e.is_gpio_request = true) ∧ hal.gpio_request_ret ≠ 0
      then [Event.gpio_free hal.gpio_request_ret] else [] := by
  refine ⟨?_, ?_, ?_⟩
  · by_cases h0 : hal.spi_hw_init_ret = 0
    · cases hc : cfg.use_spi_hw_chipselect
      · by_cases hg : hal.gpio_request_ret = 0
        · rw [main_request_failed cfg hal n hc h0 hg, List.filter_append, filter_idle_loop _ rfl]
          simp [List.filter_cons, Event.is_spi_hw_free]
        · rw [main_gpio_ok cfg hal n hc h0 hg, List.filter_append, filter_idle_loop _ rfl]
          simp [List.filter_cons, Event.is_spi_hw_free, report_call]
      · rw [main_hwcs_ok cfg hal n hc h0, List.filter_append, filter_idle_loop _ rfl]
        simp [List.filter_cons, Event.is_spi_hw_free, report_call]
    · rw [main_init_failed cfg hal n h0, List.filter_append, filter_idle_loop _ rfl]
      simp [List.filter_cons, Event.is_spi_hw_free]
  · refine ⟨[ Event.logicrom_init (STDIO_PORT cfg), Event.printf "System Ready\n" [] ] ++
        (spi_test cfg hal).2,
      (if cfg.use_spi_hw_chipselect then []
        else if (spi_test cfg hal).1 ≠ 0 then [Event.gpio_free (spi_test cfg hal).1] else []) ++
        idle_loop n, ?_, ?_⟩
    · simp [main, teardown]
    · intro e he
      rw [List.mem_append] at he
      rcases he with he | he
      · split at he
        · simp at he
        · split at he
          · rw [List.mem_singleton] at he
            rw [he]; simp [Event.is_transfer, Event.is_cs_write]
          · simp at he
      · rw [mem_idle_loop e n he]; simp [Event.is_transfer, Event.is_cs_write]
  · by_cases hcond : (∃ e ∈ main cfg hal n, e.is_gpio_request = true) ∧ hal.gpio_request_ret ≠ 0
    · rw [if_pos hcond]
      obtain ⟨hc, h0⟩ := gpio_request_called cfg hal n hcond.1
      rw [main_gpio_ok cfg hal n hc h0 hcond.2, List.filter_append, filter_idle_loop _ rfl]
      simp [List.filter_cons, Event.is_gpio_free, report_call]
    · rw [if_neg hcond]
      by_cases h0 : hal.spi_hw_init_ret = 0
      · cases hc : cfg.use_spi_hw_chipselect
        · by_cases hg : hal.gpio_request_ret = 0
          · rw [main_request_failed cfg hal n hc h0 hg, List.filter_append,
              filter_idle_loop _ rfl]
            simp [List.filter_cons, Event.is_gpio_free]
          · exact absurd ⟨gpio_request_of_init_ok cfg hal n hc h0, hg⟩ hcond
        · rw [main_hwcs_ok cfg hal n hc h0, List.filter_append, filter_idle_loop _ rfl]
          simp [List.filter_cons, Event.is_gpio_free, report_call]
      · rw [main_init_failed cfg hal n h0, List.filter_append, filter_idle_loop _ rfl]
        simp [List.filter_cons, Event.is_gpio_free]

/-- C9: on a successful run the calls other than `printf` are exactly:
`logicrom_init`; `spi_hw_init` with clock 10000, `SPI_MODE0` and
`SPI_CSPOL_LOW`; in the GPIO variant `gpio_request`; chip-select 0, transfer of
the byte 0x66 write-only, chip-select 1; chip-select 0, transfer of 0x99
write-only, chip-select 1; `os_task_sleep(100)`; chip-select 0, transfer of 0x9F
write-only, transfer of 3 bytes read-only, chip-select 1; then teardown and the
idle `sleep(1)` calls.  Along the run chip-select writes of 0 and 1 alternate,
every transfer is made while chip-select is driven 0, and chip-select ends at 1. -/
theorem command_sequence (cfg : Config) (hal : Hal) (n : Nat)
    (h : hal.spi_hw_init_ret = 0)
    (hcs : cfg.use_spi_hw_chipselect = true ∨ hal.gpio_request_ret ≠ 0) :
    (cfg.use_spi_hw_chipselect = false →
      hal_calls (main cfg hal n) =
        [ Event.logicrom_init (STDIO_PORT cfg),
          Event.spi_hw_init (SPI_HW_PORT cfg) false 10000 SpiMode.SPI_MODE0 SpiCsPol.SPI_CSPOL_LOW,
          Event.gpio_request ( CS_GPIO cfg) [GpioFlag.GPIO_FLAG_OUTPUT, GpioFlag.GPIO_FLAG_DEFHIGH],
          Event.gpio_write hal.gpio_request_ret 0,
          Event.spi_hw_transfer (SPI_HW_PORT cfg) (some [0x66]) false 1,
          Event.gpio_write hal.gpio_request_ret 1,
          Event.gpio_write hal.gpio_request_ret 0,
          Event.spi_hw_transfer (SPI_HW_PORT cfg) (some [0x99]) false 1,
          Event.gpio_write hal.gpio_request_ret 1,
          Event.os_task_sleep 100,
          Event.gpio_write hal.gpio_request_ret 0,
          Event.spi_hw_transfer (SPI_HW_PORT cfg) (some [0x9F]) false 1,
          Event.spi_hw_transfer (SPI_HW_PORT cfg) none true 3,
          Event.gpio_write hal.gpio_request_ret 1,
          Event.spi_hw_free (SPI_HW_PORT cfg),
          Event.gpio_free hal.gpio_request_ret ] ++ List.replicate n (Event.sleep 1)) ∧
    (cfg.use_spi_hw_chipselect = true →
      hal_calls (main cfg hal n) =
        [ Event.logicrom_init (STDIO_PORT cfg),
          Event.spi_hw_init (SPI_HW_PORT cfg) false 10000 SpiMode.SPI_MODE0 SpiCsPol.SPI_CSPOL_LOW,
          Event.spi_hw_cscontrol (SPI_HW_PORT cfg) 0,
          Event.spi_hw_transfer (SPI_HW_PORT cfg) (some [0x66]) false 1,
          Event.spi_hw_cscontrol (SPI_HW_PORT cfg) 1,
          Event.spi_hw_cscontrol (SPI_HW_PORT cfg) 0,
          Event.spi_hw_transfer (SPI_HW_PORT cfg) (some [0x99]) false 1,
          Event.spi_hw_cscontrol (SPI_HW_PORT cfg) 1,
          Event.os_task_sleep 100,
          Event.spi_hw_cscontrol (SPI_HW_PORT cfg) 0,
          Event.spi_hw_transfer (SPI_HW_PORT cfg) (some [0x9F]) false 1,
          Event.spi_hw_transfer (SPI_HW_PORT cfg) none true 3,
          Event.spi_hw_cscontrol (SPI_HW_PORT cfg) 1,
          Event.spi_hw_free (SPI_HW_PORT cfg) ] ++ List.replicate n (Event.sleep 1)) ∧
    cs_discipline false (main cfg hal n) = true := by
  refine ⟨?_, ?_, ?_⟩
  · intro hc
    have hg : hal.gpio_request_ret ≠ 0 := by
      rcases hcs with hcs | hcs
      · rw [hc] at hcs; cases hcs
      · exact hcs
    exact hal_calls_gpio_ok cfg hal n hc h hg
  · intro hc
    exact hal_calls_hwcs_ok cfg hal n hc h
  · cases hc : cfg.use_spi_hw_chipselect
    · have hg : hal.gpio_request_ret ≠ 0 := by
        rcases hcs with hcs | hcs
        · rw [hc] at hcs; cases hcs
        · exact hcs
      rw [main_gpio_ok cfg hal n hc h hg]
      simp [cs_discipline, report_call, cs_discipline_idle_loop]
    · rw [main_hwcs_ok cfg hal n hc h]
      simp [cs_discipline, report_call, cs_discipline_idle_loop]

theorem command_sequence_witness :
    (⟨0, 7, 0xC8, 0x40, 0x18⟩ : Hal).spi_hw_init_ret = 0 ∧
    (⟨0, 7, 0xC8, 0x40, 0x18⟩ : Hal).gpio_request_ret ≠ 0 ∧
    hal_calls (main gpio_build ⟨0, 7, 0xC8, 0x40, 0x18⟩ 2) =
      [ Event.logicrom_init "/dev/ttyS0",
        Event.spi_hw_init SpiPort.SPI_PORT_0 false 10000 SpiMode.SPI_MODE0 SpiCsPol.SPI_CSPOL_LOW,
        Event.gpio_request GpioLine.GPIO_0 [GpioFlag.GPIO_FLAG_OUTPUT, GpioFlag.GPIO_FLAG_DEFHIGH],
        Event.gpio_write 7 0,
        Event.spi_hw_transfer SpiPort.SPI_PORT_0 (some [0x66]) false 1,
        Event.gpio_write 7 1,
        Event.gpio_write 7 0,
        Event.spi_hw_transfer SpiPort.SPI_PORT_0 (some [0x99]) false 1,
        Event.gpio_write 7 1,
        Event.os_task_sleep 100,
        Event.gpio_write 7 0,
        Event.spi_hw_transfer SpiPort.SPI_PORT_0 (some [0x9F]) false 1,
        Event.spi_hw_transfer SpiPort.SPI_PORT_0 none true 3,
        Event.gpio_write 7 1,
        Event.spi_hw_free SpiPort.SPI_PORT_0,
        Event.gpio_free 7, Event.sleep 1, Event.sleep 1 ] ∧
    cs_discipline false (main gpio_build ⟨0, 7, 0xC8, 0x40, 0x18⟩ 2) = true :=
  ⟨by decide, by decide,
    (command_sequence gpio_build ⟨0, 7, 0xC8, 0x40, 0x18⟩ 2 (by decide)
      (Or.inr (by decide))).1 (by decide),
    (command_sequence gpio_build ⟨0, 7, 0xC8, 0x40, 0x18⟩ 2 (by decide)
      (Or.inr (by decide))).2.2⟩

/-- C10: in the GPIO chip-select variant a transfer is made, and a text starting
with `SPI Flash ID` is printed, if and only if `spi_hw_init` returned 0 and
`gpio_request` returned a non-zero handle; for every non-zero handle, negative
ones included, the whole command sequence is run with the chip-select writes
on that handle and `gpio_free` is called on it. -/
theorem only_zero_handle_is_failure (cfg : Config) (hal : Hal) (n : Nat)
    (hc : cfg.use_spi_hw_chipselect = false) :
    ((∃ e ∈ main cfg hal n, e.is_transfer = true) ↔
      (hal.spi_hw_init_ret = 0 ∧ hal.gpio_request_ret ≠ 0)) ∧
    ((∃ e ∈ main cfg hal n, e.is_report = true) ↔
      (hal.spi_hw_init_ret = 0 ∧ hal.gpio_request_ret ≠ 0)) ∧
    (hal.spi_hw_init_ret = 0 → hal.gpio_request_ret ≠ 0 →
      hal_calls (main cfg hal n) =
        [ Event.logicrom_init (STDIO_PORT cfg),
          Event.spi_hw_init (SPI_HW_PORT cfg) false 10000 SpiMode.SPI_MODE0 SpiCsPol.SPI_CSPOL_LOW,
          Event.gpio_request ( CS_GPIO cfg) [GpioFlag.GPIO_FLAG_OUTPUT, GpioFlag.GPIO_FLAG_DEFHIGH],
          Event.gpio_write hal.gpio_request_ret 0,
          Event.spi_hw_transfer (SPI_HW_PORT cfg) (some [0x66]) false 1,
          Event.gpio_write hal.gpio_request_ret 1,
          Event.gpio_write hal.gpio_request_ret 0,
          Event.spi_hw_transfer (SPI_HW_PORT cfg) (some [0x99]) false 1,
          Event.gpio_write hal.gpio_request_ret 1,
          Event.os_task_sleep 100,
          Event.gpio_write hal.gpio_request_ret 0,
          Event.spi_hw_transfer (SPI_HW_PORT cfg) (some [0x9F]) false 1,
          Event.spi_hw_transfer (SPI_HW_PORT cfg) none true 3,
          Event.gpio_write hal.gpio_request_ret 1,
          Event.spi_hw_free (SPI_HW_PORT cfg),
          Event.gpio_free hal.gpio_request_ret ] ++ List.replicate n (Event.sleep 1)) := by
  have key : ∀ p : Event → Bool, p (Event.sleep 1) = false →
      p (Event.logicrom_init (STDIO_PORT cfg)) = false →
      p (Event.printf "System Ready\n" []) = false →
      p (Event.spi_hw_init (SPI_HW_PORT cfg) false 10000 SpiMode.SPI_MODE0
        SpiCsPol.SPI_CSPOL_LOW) = false →
      p (Event.printf "SPI Init: %d\n\n" [PfArg.int hal.spi_hw_init_ret]) = false →
      p (Event.printf "SPI Init: %d\n\n" [PfArg.int 0]) = false →
      p (Event.gpio_request ( CS_GPIO cfg)
        [GpioFlag.GPIO_FLAG_OUTPUT, GpioFlag.GPIO_FLAG_DEFHIGH]) = false →
      p (Event.printf "GPIO request: %x\n" [PfArg.int 0]) = false →
      p (Event.spi_hw_free (SPI_HW_PORT cfg)) = false →
      (∃ e ∈ main cfg hal n, p e = true) →
      (hal.spi_hw_init_ret = 0 ∧ hal.gpio_request_ret ≠ 0) := by
    intro p h1 h2 h3 h4 h5 h6 h7 h8 h9 ⟨e, he, hp⟩
    by_cases h0 : hal.spi_hw_init_ret = 0
    · by_cases hg : hal.gpio_request_ret = 0
      · rw [main_request_failed cfg hal n hc h0 hg, List.mem_append] at he
        rcases he with he | he
        · simp only [List.mem_cons, List.mem_singleton, List.not_mem_nil, or_false] at he
          rcases he with rfl | rfl | rfl | rfl | rfl | rfl | rfl <;> simp_all
        · rw [mem_idle_loop e n he, h1] at hp; cases hp
      · exact ⟨h0, hg⟩
    · rw [main_init_failed cfg hal n h0, List.mem_append] at he
      rcases he with he | he
      · simp only [List.mem_cons, List.mem_singleton, List.not_mem_nil, or_false] at he
        rcases he with rfl | rfl | rfl | rfl | rfl <;> simp_all
      · rw [mem_idle_loop e n he, h1] at hp; cases hp
  refine ⟨⟨?_, ?_⟩, ⟨?_, ?_⟩, ?_⟩
  · exact key Event.is_transfer rfl rfl rfl rfl rfl rfl rfl rfl rfl
  · rintro ⟨h0, hg⟩
    refine ⟨Event.spi_hw_transfer (SPI_HW_PORT cfg) none true 3, ?_, rfl⟩
    rw [main_gpio_ok cfg hal n hc h0 hg]; simp
  · exact key Event.is_report rfl rfl (by decide) rfl
      (by simp [Event.is_report, render, List.isPrefixOf])
      (by simp [Event.is_report, render, List.isPrefixOf]) rfl
      (by simp [Event.is_report, render, List.isPrefixOf]) rfl
  · rintro ⟨h0, hg⟩
    refine ⟨report_call hal, ?_, report_call_is_report hal⟩
    rw [main_gpio_ok cfg hal n hc h0 hg]; simp
  · intro h0 hg
    exact hal_calls_gpio_ok cfg hal n hc h0 hg

theorem only_zero_handle_is_failure_witness :
    gpio_build.use_spi_hw_chipselect = false ∧
    hal_calls (main gpio_build ⟨0, -3, 0xEF, 0x40, 0x18⟩ 1) =
      [ Event.logicrom_init "/dev/ttyS0",
        Event.spi_hw_init SpiPort.SPI_PORT_0 false 10000 SpiMode.SPI_MODE0 SpiCsPol.SPI_CSPOL_LOW,
        Event.gpio_request GpioLine.GPIO_0 [GpioFlag.GPIO_FLAG_OUTPUT, GpioFlag.GPIO_FLAG_DEFHIGH],
        Event.gpio_write (-3) 0,
        Event.spi_hw_transfer SpiPort.SPI_PORT_0 (some [0x66]) false 1,
        Event.gpio_write (-3) 1,
        Event.gpio_write (-3) 0,
        Event.spi_hw_transfer SpiPort.SPI_PORT_0 (some [0x99]) false 1,
        Event.gpio_write (-3) 1,
        Event.os_task_sleep 100,
        Event.gpio_write (-3) 0,
        Event.spi_hw_transfer SpiPort.SPI_PORT_0 (some [0x9F]) false 1,
        Event.spi_hw_transfer SpiPort.SPI_PORT_0 none true 3,
        Event.gpio_write (-3) 1,
        Event.spi_hw_free SpiPort.SPI_PORT_0,
        Event.gpio_free (-3), Event.sleep 1 ] :=
  ⟨by decide,
    (only_zero_handle_is_failure gpio_build ⟨0, -3, 0xEF, 0x40, 0x18⟩ 1 (by decide)).2.2
      (by decide) (by decide)⟩

end SpiExample
